import Mathlib

set_option maxRecDepth 4000

/-!
Verification of the AgentMesh orchestration platform against its specification.

This file shallowly embeds the Python services of the repository
(`backend/orchestrator/app/services/...`) as executable Lean definitions and
proves or refutes the specification claims about them.  Machine-level detail
that cannot influence the verified properties (wall-clock timestamps, file
descriptors, logging text) is abstracted; every control-flow decision of the
embedded functions follows the Python source line by line.
-/

namespace AgentMesh

/-! ## JSON values

Python services pass `Dict[str, Any]` JSON-like data around.  We embed JSON
values with integer numerics: every concrete datum appearing in the claims and
in the repository's registries that these proofs touch is integer-valued, and
none of the proved properties depends on float rounding. -/

inductive Json where
  | null : Json
  | bool (b : Bool) : Json
  | num (n : Int) : Json
  | str (s : String) : Json
  | arr (items : List Json) : Json
  | obj (fields : List (String × Json)) : Json

instance : Inhabited Json := ⟨Json.null⟩

/-- Association-list dictionary, mirroring a Python `dict` with insertion
order. -/
abbrev Dict := List (String × Json)

/-- Python `d.get(k)` / `k in d`: first binding wins (keys are unique in a
Python dict; our operations preserve uniqueness of the keys they touch). -/
def dictGet (d : Dict) (k : String) : Option Json :=
  match d with
  | [] => none
  | (k', v) :: rest => if k' = k then some v else dictGet rest k

/-- Python `d[k] = v`: replace the binding in place if the key exists,
otherwise append it. -/
def dictSet (d : Dict) (k : String) (v : Json) : Dict :=
  match d with
  | [] => [(k, v)]
  | (k', v') :: rest => if k' = k then (k, v) :: rest else (k', v') :: dictSet rest k v

/-- Python `d.update(u)`: fold the updates left to right. -/
def dictUpdate (d : Dict) (u : Dict) : Dict :=
  u.foldl (fun acc kv => dictSet acc kv.1 kv.2) d

/-- Truthiness of a Python dict: non-empty. -/
def dictTruthy (d : Dict) : Bool := !d.isEmpty

/-! ## Python `json.dumps`

`json.dumps` with default arguments: item separator `", "`, key separator
`": "`, `ensure_ascii=True`.  Needed because the token-budget enforcer
estimates tokens as `len(json.dumps(context)) // 4`. -/

/-- Hexadecimal digits of `n` padded to 4 places (for `\uXXXX` escapes). -/
def hex4 (n : Nat) : String :=
  let ds := Nat.toDigits 16 n
  let pad := List.replicate (4 - ds.length) '0'
  String.mk (pad ++ ds)

/-- Escape one character the way `json.dumps` (with `ensure_ascii=True`) does. -/
def pyJsonEscapeChar (c : Char) : String :=
  if c = '"' then "\\\""
  else if c = '\\' then "\\\\"
  else if c = '\n' then "\\n"
  else if c = '\t' then "\\t"
  else if c = '\r' then "\\r"
  else if c = (Char.ofNat 8) then "\\b"
  else if c = (Char.ofNat 12) then "\\f"
  else if c.toNat < 0x20 || c.toNat > 0x7e then "\\u" ++ hex4 c.toNat
  else String.singleton c

/-- Serialization of a JSON string literal. -/
def pyJsonStr (s : String) : String :=
  "\"" ++ String.join (s.data.map pyJsonEscapeChar) ++ "\""

mutual
/-- Python `json.dumps` with default separators. -/
def dumps : Json → String
  | .null => "null"
  | .bool true => "true"
  | .bool false => "false"
  | .num n => toString n
  | .str s => pyJsonStr s
  | .arr items => "[" ++ dumpsArr items ++ "]"
  | .obj fields => "\x7b" ++ dumpsObj fields ++ "\x7d"

def dumpsArr : List Json → String
  | [] => ""
  | [x] => dumps x
  | x :: y :: rest => dumps x ++ ", " ++ dumpsArr (y :: rest)

def dumpsObj : List (String × Json) → String
  | [] => ""
  | [(k, v)] => pyJsonStr k ++ ": " ++ dumps v
  | (k, v) :: kv :: rest => pyJsonStr k ++ ": " ++ dumps v ++ ", " ++ dumpsObj (kv :: rest)
end

/-! ## Registry governance policies (`registry_manager.py`)

`GovernancePolicies` is a pydantic model `\x7bversion, policies : Dict[str, Any]\x7d`.
The registry reads `policies["agent_invocation_access"]["rules"]` and
`policies["agent_tool_access"]["rules"]` (each rule a dict with keys
`agent_id`, `allowed_agents`/`allowed_tools`, `denied_agents`/`denied_tools`,
all read with `.get` defaults), and the enforcer reads
`policies["execution_constraints"]["max_tool_invocations_per_session"]` and
`policies["hitl_access_control"]["roles"]`.  We type exactly those fields. -/

/-- One rule of `agent_invocation_access.rules` / `agent_tool_access.rules`.
`agent_id` is `rule.get("agent_id")` (a missing key reads as `none`);
`allowed`/`denied` are the `allowed_*`/`denied_*` lists with default `[]`. -/
structure AccessRule where
  agent_id : Option String
  allowed : List String
  denied : List String
deriving Repr, DecidableEq

/-- One entry of `hitl_access_control.roles`. -/
structure RoleDef where
  role_id : String
  can_act_as : List String
deriving Repr, DecidableEq

/-- The parts of the governance-policies document that the verified code
reads. `max_tool_invocations_per_session = none` models a missing key (the
reader applies the Python default 50). -/
structure GovernancePolicies where
  agent_invocation_rules : List AccessRule
  agent_tool_rules : List AccessRule
  max_tool_invocations_per_session : Option Nat
  hitl_roles : List RoleDef
deriving Repr, DecidableEq

/-- Scan of the rule list shared by `is_agent_invocation_allowed` and
`is_tool_access_allowed`: the first rule whose `agent_id` equals the invoker
decides via its denied list, then its allowed list; a matching rule that
lists the target in neither keeps scanning; an exhausted scan denies. -/
def scanAccessRules (rules : List AccessRule) (invoker target : String) : Bool :=
  match rules with
  | [] => false
  | r :: rest =>
    if r.agent_id = some invoker then
      if target ∈ r.denied then false
      else if target ∈ r.allowed then true
      else scanAccessRules rest invoker target
    else scanAccessRules rest invoker target

/-- `RegistryManager.is_agent_invocation_allowed`: permissive when no
policies document is loaded, otherwise scan `agent_invocation_access.rules`
and deny by default. -/
def is_agent_invocation_allowed (gov : Option GovernancePolicies)
    (invoker_agent_id target_agent_id : String) : Bool :=
  match gov with
  | none => true
  | some g => scanAccessRules g.agent_invocation_rules invoker_agent_id target_agent_id

/-- `RegistryManager.is_tool_access_allowed`: same shape over
`agent_tool_access.rules`. -/
def is_tool_access_allowed (gov : Option GovernancePolicies)
    (agent_id tool_id : String) : Bool :=
  match gov with
  | none => true
  | some g => scanAccessRules g.agent_tool_rules agent_id tool_id

/-! ## Governance enforcer (`governance_enforcer.py`)

One `GovernanceEnforcer` per session; its mutable per-session counters are
the state threaded here.  Timestamps on violations are irrelevant to every
verified property and are omitted from the violation records. -/

/-- A recorded `PolicyViolation` (violation type and the target it names). -/
structure PolicyViolation where
  violation_type : String
  agent_id : String
  target : String
deriving Repr, DecidableEq

/-- The result of a policy enforcement check. -/
structure EnforcementResult where
  allowed : Bool
  violation : Option PolicyViolation
  warning : Option String
deriving Repr, DecidableEq

/-- Session-level counters of a `GovernanceEnforcer`. -/
structure EnforcerState where
  agent_invocation_counts : List (String × Nat)
  tool_invocation_count : Nat
  llm_call_count : Nat
  policy_violations : List PolicyViolation
deriving Repr, DecidableEq

/-- Counters of a freshly constructed enforcer. -/
def EnforcerState.init : EnforcerState := ⟨[], 0, 0, []⟩

/-- Python `self._agent_invocation_counts.get(target, 0)`. -/
def getCount (counts : List (String × Nat)) (k : String) : Nat :=
  match counts with
  | [] => 0
  | (k', v) :: rest => if k' = k then v else getCount rest k

/-- Python `self._agent_invocation_counts[target] = v`. -/
def setCount (counts : List (String × Nat)) (k : String) (v : Nat) : List (String × Nat) :=
  match counts with
  | [] => [(k, v)]
  | (k', v') :: rest => if k' = k then (k, v) :: rest else (k', v') :: setCount rest k v

/-- Python `sum(self.agent_invocations.values())`. -/
def sumCounts (counts : List (String × Nat)) : Nat :=
  counts.foldl (fun acc kv => acc + kv.2) 0

/-- The hardcoded `max_duplicates = 2` of `check_agent_invocation`. -/
def max_duplicates : Nat := 2

/-- `GovernanceEnforcer.check_agent_invocation`: registry-based access
control first, then the duplicate-invocation cap; the per-target counter is
incremented only on the allowed path, with a warning when the count reaches
the cap. -/
def check_agent_invocation (gov : Option GovernancePolicies) (st : EnforcerState)
    (invoker_agent_id target_agent_id : String) : EnforcementResult × EnforcerState :=
  if !is_agent_invocation_allowed gov invoker_agent_id target_agent_id then
    let v : PolicyViolation := ⟨"agent_invocation_denied", invoker_agent_id, target_agent_id⟩
    (⟨false, some v, none⟩, { st with policy_violations := st.policy_violations ++ [v] })
  else
    let current_count := getCount st.agent_invocation_counts target_agent_id
    if current_count ≥ max_duplicates then
      let v : PolicyViolation := ⟨"max_invocations_exceeded", invoker_agent_id, target_agent_id⟩
      (⟨false, some v, none⟩, { st with policy_violations := st.policy_violations ++ [v] })
    else
      let st' := { st with
        agent_invocation_counts :=
          setCount st.agent_invocation_counts target_agent_id (current_count + 1) }
      let warning :=
        if current_count + 1 = max_duplicates then
          some "invocation limit reached"
        else none
      (⟨true, none, warning⟩, st')

/-- `GovernanceEnforcer.check_tool_access`: registry check, then the
session-level tool-invocation limit read from the governance policies
(default 50) when a policies document is loaded; the counter is incremented
only on the allowed path. -/
def check_tool_access (gov : Option GovernancePolicies) (st : EnforcerState)
    (agent_id tool_id : String) : EnforcementResult × EnforcerState :=
  if !is_tool_access_allowed gov agent_id tool_id then
    let v : PolicyViolation := ⟨"tool_access_denied", agent_id, tool_id⟩
    (⟨false, some v, none⟩, { st with policy_violations := st.policy_violations ++ [v] })
  else
    let deny :=
      match gov with
      | none => false
      | some g =>
        st.tool_invocation_count ≥ g.max_tool_invocations_per_session.getD 50
    if deny then
      let v : PolicyViolation := ⟨"max_invocations_exceeded", agent_id, tool_id⟩
      (⟨false, some v, none⟩, { st with policy_violations := st.policy_violations ++ [v] })
    else
      (⟨true, none, none⟩, { st with tool_invocation_count := st.tool_invocation_count + 1 })

/-- A sequence of `check_agent_invocation` calls within one session,
threading the enforcer state (the results are discarded; only the final
state matters for the counter invariant). -/
def runInvocationChecks (gov : Option GovernancePolicies)
    (requests : List (String × String)) (st : EnforcerState) : EnforcerState :=
  match requests with
  | [] => st
  | (invoker, target) :: rest =>
    runInvocationChecks gov rest (check_agent_invocation gov st invoker target).2

/-! ## HITL role check (`GovernanceEnforcer.check_hitl_access`)

After the admin and exact-match fast paths, the source enters a `try` block
whose first read is `policies.get("policies", \x7b\x7d)` where
`policies = self.registry.get_governance_policies()` is the pydantic
`GovernancePolicies` model, or `None`.  Neither object has a `.get` method
(the same class correctly reads `governance.policies.get(...)` in
`check_tool_access`), so the read raises `AttributeError` for every input;
the `except` swallows it and the function falls through to `return False`. -/

/-- The role-hierarchy lookup attempted inside the `try` block.  It raises
before reaching the role table, regardless of the loaded policies. -/
def hitlHierarchyLookup (_gov : Option GovernancePolicies)
    (_user_role _required_role : String) : Except String Bool :=
  Except.error "AttributeError: object has no attribute get"

/-- `GovernanceEnforcer.check_hitl_access` as implemented: admin override,
exact match, then the (always-failing) hierarchy lookup, then `False`. -/
def check_hitl_access (gov : Option GovernancePolicies)
    (user_role required_role : String) : Bool :=
  if user_role = "admin" then true
  else if user_role = required_role then true
  else
    match hitlHierarchyLookup gov user_role required_role with
    | .ok b => b
    | .error _ => false

/-- Modelled from the spec: the role check the specification describes,
where the `can_act_as` entry of the user's role grants access to the
required role.  Used only to exhibit the divergence from the code. -/
def check_hitl_access_spec (gov : Option GovernancePolicies)
    (user_role required_role : String) : Bool :=
  if user_role = "admin" then true
  else if user_role = required_role then true
  else
    match gov with
    | none => false
    | some g =>
      match g.hitl_roles.find? (fun r => r.role_id = user_role) with
      | none => false
      | some r => required_role ∈ r.can_act_as

/-! ## Checkpoint trigger-condition evaluation (`orchestrator_runner.py`)

`OrchestratorRunner._evaluate_expression` matches the anchored prefix regex
`(\w+(?:\.\w+)*)\s*([><=]+)\s*([0-9.]+|"[^"]*")` against the stripped
expression, resolves the dotted field path against the data dict, parses the
literal, and compares.  We implement the same prefix match directly
(`\w`, `\s` restricted to ASCII, which covers every expression the
repository ships). -/

/-- Python regex `\w` (ASCII). -/
def isWordChar (c : Char) : Bool := c.isAlphanum || c = '_'

/-- Consume `\w+`; fails on zero word characters. -/
def takeWord (cs : List Char) : Option (String × List Char) :=
  let w := cs.takeWhile isWordChar
  if w.isEmpty then none else some (String.mk w, cs.drop w.length)

/-- Consume `(?:\.\w+)*` greedily, returning the dotted segments.  The fuel
is an upper bound on the iteration count (each iteration consumes at least
two characters), making the recursion structural. -/
def takeDotSegs : Nat → List Char → List String → (List String × List Char)
  | 0, cs, acc => (acc, cs)
  | fuel + 1, cs, acc =>
    match cs with
    | '.' :: rest =>
      match takeWord rest with
      | some (w, rest') => takeDotSegs fuel rest' (acc ++ [w])
      | none => (acc, cs)
    | _ => (acc, cs)

/-- The literal capture group `[0-9.]+|"[^"]*"`, kept raw: the source decides
between string and number only after the match. -/
inductive RawLit where
  | numlike (s : String) : RawLit
  | quoted (s : String) : RawLit
deriving Repr, DecidableEq

/-- Consume the literal group (trailing characters are ignored: `re.match`
is a prefix match). -/
def takeLit (cs : List Char) : Option RawLit :=
  match cs with
  | '"' :: rest =>
    let content := rest.takeWhile (fun c => c ≠ '"')
    match rest.drop content.length with
    | '"' :: _ => some (.quoted (String.mk content))
    | _ => none
  | _ =>
    let ds := cs.takeWhile (fun c => c.isDigit || c = '.')
    if ds.isEmpty then none else some (.numlike (String.mk ds))

/-- Python `str.strip()` (default whitespace). -/
def pyStrip (cs : List Char) : List Char :=
  ((cs.dropWhile Char.isWhitespace).reverse.dropWhile Char.isWhitespace).reverse

/-- The whole regex match on the stripped expression: dotted field path
(already split on `.` as the source does next), the operator characters
`[><=]+`, and the raw literal. -/
def parseCondExpr (expression : String) : Option (List String × String × RawLit) :=
  let cs := pyStrip expression.data
  match takeWord cs with
  | none => none
  | some (seg0, rest0) =>
    let (segs, rest1) := takeDotSegs rest0.length rest0 []
    let rest2 := rest1.dropWhile Char.isWhitespace
    let ops := rest2.takeWhile (fun c => c = '>' || c = '<' || c = '=')
    if ops.isEmpty then none
    else
      let rest3 := (rest2.drop ops.length).dropWhile Char.isWhitespace
      match takeLit rest3 with
      | none => none
      | some lit => some (seg0 :: segs, String.mk ops, lit)

/-- Walk the dotted path: `isinstance(field_value, dict) and part in
field_value`, else the source returns `False` (modelled as `none`). -/
def resolvePath : Json → List String → Option Json
  | v, [] => some v
  | .obj fields, p :: rest =>
    (match dictGet fields p with
     | some v => resolvePath v rest
     | none => none)
  | _, _ :: _ => none

/-- A parsed literal value.  Numeric literals are modelled as exact
rationals; `float` rounding cannot affect any property proved here (both
defaults fire before the literal is ever compared). -/
inductive LitVal where
  | num (q : Rat) : LitVal
  | str (s : String) : LitVal
deriving Repr, DecidableEq

/-- Decimal digits to a natural number. -/
def digitsToNat (cs : List Char) : Nat :=
  cs.foldl (fun acc c => acc * 10 + (c.toNat - 48)) 0

/-- Python `float(value_str)` on a `[0-9.]+` capture: at most one dot and at
least one digit, else `ValueError`.  (The full `float` grammar — signs,
exponents, whitespace — is unreachable through the `[0-9.]+` capture.) -/
def pyFloat (s : String) : Option Rat :=
  let cs := s.data
  if !cs.all (fun c => c.isDigit || c = '.') then none
  else
    let ipart := cs.takeWhile (fun c => c ≠ '.')
    match cs.drop ipart.length with
    | [] => if ipart.isEmpty then none else some ((digitsToNat ipart : Nat) : Rat)
    | _ :: fpart =>
      if fpart.contains '.' then none
      else if ipart.isEmpty && fpart.isEmpty then none
      else
        some (((digitsToNat ipart : Nat) : Rat) +
          ((digitsToNat fpart : Nat) : Rat) / ((10 : Rat) ^ fpart.length))

/-- Turn the raw capture into a value: quoted captures are stripped of their
quotes, numeric captures go through `float`. -/
def parseLitVal : RawLit → Option LitVal
  | .quoted s => some (.str s)
  | .numlike s => (pyFloat s).map .num

/-- Python's numeric view of a JSON value (`bool` is an `int`). -/
def jsonNumView : Json → Option Rat
  | .num n => some (n : Rat)
  | .bool b => some (if b then 1 else 0)
  | _ => none

/-- One Python comparison `field_value op value`; `none` models a raised
`TypeError` (ordering across types), while `==` across types is `False`. -/
def pyCompare (v : Json) (op : String) (lit : LitVal) : Option Bool :=
  match lit with
  | .num q =>
    match jsonNumView v with
    | some x =>
      if op = ">" then some (decide (x > q))
      else if op = "<" then some (decide (x < q))
      else if op = "==" then some (decide (x = q))
      else if op = ">=" then some (decide (x ≥ q))
      else some (decide (x ≤ q))
    | none => if op = "==" then some false else none
  | .str s =>
    match v with
    | .str t =>
      if op = ">" then some (decide (s < t))
      else if op = "<" then some (decide (t < s))
      else if op = "==" then some (decide (t = s))
      else if op = ">=" then some (decide (¬ t < s))
      else some (decide (¬ s < t))
    | _ => if op = "==" then some false else none

/-- The five handled operator strings; any other `[><=]+` match falls past
the `if/elif` chain to the final `return False`. -/
def knownOp (op : String) : Bool :=
  op = ">" || op = "<" || op = "==" || op = ">=" || op = "<="

/-- `OrchestratorRunner._evaluate_expression`.  An unparseable expression
returns `True` ("if can't parse, trigger anyway"); a missing field returns
`False`; a `ValueError`/`TypeError` inside the `try` returns `True`; an
unhandled operator returns `False`. -/
def evaluate_expression (expression : String) (data : Dict) : Bool :=
  match parseCondExpr expression with
  | none => true
  | some (path, op, rawlit) =>
    match resolvePath (Json.obj data) path with
    | none => false
    | some v =>
      match parseLitVal rawlit with
      | none => true
      | some lit =>
        if knownOp op then
          match pyCompare v op lit with
          | some b => b
          | none => true
        else false

/-- A `TriggerCondition` of a `CheckpointConfig`. -/
structure TriggerCondition where
  type : String
  condition : String
deriving Repr, DecidableEq

/-- `OrchestratorRunner._evaluate_checkpoint_condition`: no condition means
always trigger; `output_based` evaluates against a truthy agent output;
`input_based` against the original input; everything else triggers. -/
def evaluate_checkpoint_condition (trigger_condition : Option TriggerCondition)
    (agent_output : Option Dict) (original_input : Dict) : Bool :=
  match trigger_condition with
  | none => true
  | some tc =>
    if tc.type = "output_based" && (match agent_output with
        | some d => dictTruthy d
        | none => false) then
      evaluate_expression tc.condition (agent_output.getD [])
    else if tc.type = "input_based" then
      evaluate_expression tc.condition original_input
    else true

/-! ## Token budget enforcer (`processors/token_budget_enforcer.py`)

The processor estimates tokens as `len(json.dumps(context)) // 4`, reads the
budget from `context["metadata"]["max_context_tokens"]` (default 10000), and
when over budget pops observations from the front of the list while
`removed_count < len(truncated["observations"]) and target_reduction > 0`. -/

/-- `TokenBudgetEnforcerProcessor._estimate_tokens`. -/
def estimate_tokens (context : Dict) : Nat :=
  (dumps (Json.obj context)).length / 4

/-- Python `context.get("metadata", \x7b\x7d).get("max_context_tokens", 10000)`.
`none` models a raised `AttributeError`/`TypeError` (non-dict metadata or a
non-numeric budget), which the processor's `except` turns into returning the
context unchanged. -/
def getMaxContextTokens (context : Dict) : Option Int :=
  match dictGet context "metadata" with
  | none => some 10000
  | some (.obj md) =>
    (match dictGet md "max_context_tokens" with
     | none => some 10000
     | some (.num n) => some n
     | some _ => none)
  | some _ => none

/-- The `while` loop of `_truncate_context`.  `est obs` recomputes the
estimate of the context carrying `obs` as its observation list; the guard
re-reads `len(truncated["observations"])`, which shrinks as elements are
popped. -/
def truncateLoop (est : List Json → Nat) (max_tokens : Int) :
    List Json → Nat → List Json
  | [], _ => []
  | x :: tail, removed_count =>
    if removed_count < (x :: tail).length ∧ (est (x :: tail) : Int) - max_tokens > 0 then
      truncateLoop est max_tokens tail (removed_count + 1)
    else x :: tail

/-- `TokenBudgetEnforcerProcessor._truncate_context`: only a non-empty
observation list is truncated.  A truthy non-list `observations` value would
raise on `.pop(0)`; that exception propagates to `process`'s `except`, which
also returns the incoming context, so the returned context is the same. -/
def truncate_context (context : Dict) (max_tokens : Int) : Dict :=
  match dictGet context "observations" with
  | some (.arr obs) =>
    if obs.isEmpty then context
    else
      dictSet context "observations"
        (.arr (truncateLoop
          (fun o => estimate_tokens (dictSet context "observations" (.arr o)))
          max_tokens obs 0))
  | _ => context

/-- `TokenBudgetEnforcerProcessor.process`, projected onto the context it
returns (the result envelope's timing and modification log do not bear on
the verified properties).  With enforcement disabled the context passes
through; with the estimate within budget it is returned unchanged;
otherwise it is truncated. -/
def token_budget_process (enforce_limits : Bool) (context : Dict) : Dict :=
  if !enforce_limits then context
  else
    match getMaxContextTokens context with
    | none => context
    | some max_tokens =>
      if (estimate_tokens context : Int) > max_tokens then
        truncate_context context max_tokens
      else context

/-! ## Memory manager (`memory_manager.py`)

Memories live in `memories.jsonl` with a derived keyword/tag index in
`index.json`.  An `expires_at` string either parses with
`datetime.fromisoformat` to an instant (modelled as an integer) or raises,
in which case the sweep keeps the record ("Keep if can't parse"). -/

/-- The parse outcome of an `expires_at` string. -/
inductive ExpiryStamp where
  | valid (t : Int) : ExpiryStamp
  | malformed (raw : String) : ExpiryStamp
deriving Repr, DecidableEq

/-- A stored memory record (the fields the verified operations read). -/
structure Memory where
  memory_id : String
  created_at : String
  memory_type : String
  content : String
  expires_at : Option ExpiryStamp
  tags : List String
deriving Repr, DecidableEq

/-- The sweep's expiration test: expired iff `expires_at` is present, parses,
and lies strictly in the past. -/
def memoryExpired (now : Int) (m : Memory) : Bool :=
  match m.expires_at with
  | some (.valid t) => t < now
  | _ => false

/-- The keyword/tag index derived from the memory file. -/
structure MemIndex where
  keywords : List (String × List String)
  tags : List (String × List String)
deriving Repr, DecidableEq

/-- Append `id` to the bucket of `key`, creating the bucket if needed and
skipping the append when the id is already present. -/
def indexAdd (buckets : List (String × List String)) (key id : String) :
    List (String × List String) :=
  match buckets with
  | [] => [(key, [id])]
  | (k, ids) :: rest =>
    if k = key then (k, if id ∈ ids then ids else ids ++ [id]) :: rest
    else (k, ids) :: indexAdd rest key id

/-- Python `content.lower().split()`: split on whitespace runs, dropping
empties. -/
def pyWords (s : String) : List String :=
  (s.toLower.split Char.isWhitespace).filter (fun w => ¬ w.isEmpty)

/-- `MemoryManager._rebuild_index`: tags first, then keywords (words longer
than three characters), per memory in file order. -/
def rebuild_index (memories : List Memory) : MemIndex :=
  memories.foldl
    (fun idx m =>
      let idx := { idx with tags := m.tags.foldl (fun b t => indexAdd b t m.memory_id) idx.tags }
      { idx with
        keywords :=
          ((pyWords m.content).filter (fun w => w.length > 3)).foldl
            (fun b w => indexAdd b w m.memory_id) idx.keywords })
    ⟨[], []⟩

/-- The memory store: the JSONL file contents, the index file, and write
counters that record how many times each file has been rewritten (so that
"the file is not rewritten" is a provable statement). -/
structure MemoryStore where
  memories : List Memory
  index : MemIndex
  file_rewrites : Nat
  index_rebuilds : Nat
deriving Repr, DecidableEq

/-- `MemoryManager.delete_memory`: filter out the id; when nothing was
filtered, warn and return `False` without touching either file; otherwise
rewrite the file and rebuild the index. -/
def delete_memory (s : MemoryStore) (memory_id : String) : MemoryStore × Bool :=
  let remaining := s.memories.filter (fun m => m.memory_id ≠ memory_id)
  if remaining.length = s.memories.length then (s, false)
  else
    ({ memories := remaining
       index := rebuild_index remaining
       file_rewrites := s.file_rewrites + 1
       index_rebuilds := s.index_rebuilds + 1 }, true)

/-- `MemoryManager.apply_retention_policy`: drop the expired records,
rewriting the file and rebuilding the index only when the deleted count is
positive; return the deleted count. -/
def apply_retention_policy (s : MemoryStore) (now : Int) : MemoryStore × Nat :=
  let valid := s.memories.filter (fun m => ¬ memoryExpired now m)
  let deleted_count := s.memories.countP (fun m => memoryExpired now m)
  if deleted_count > 0 then
    ({ memories := valid
       index := rebuild_index valid
       file_rewrites := s.file_rewrites + 1
       index_rebuilds := s.index_rebuilds + 1 }, deleted_count)
  else (s, 0)

/-! ## Artifact version store (`artifact_version_store.py`)

Per artifact, `metadata.json` holds `\x7bartifact_id, current_version,
versions\x7d`; `save_artifact_version` assigns `current_version + 1` (or 1 when
no metadata exists) and `delete_artifact_version` resets `current_version`
to the maximum remaining version, deleting the whole directory when the last
version goes.  Version payloads, timestamps and sizes do not influence the
claims and are omitted from the version records. -/

/-- Metadata of a single artifact version. -/
structure ArtifactVersion where
  version : Nat
  parent_version : Option Nat
  handle : String
deriving Repr, DecidableEq

/-- The `metadata.json` of one artifact. -/
structure ArtifactMetadata where
  artifact_id : String
  current_version : Nat
  versions : List ArtifactVersion
deriving Repr, DecidableEq

/-- `ArtifactVersionStore.generate_handle`. -/
def generate_handle (artifact_id : String) (version : Nat) : String :=
  "artifact://" ++ artifact_id ++ "/v" ++ toString version

/-- Python `max(v.version for v in versions)` (called on non-empty lists;
the fold base 0 coincides with the maximum there). -/
def maxVersionOf (versions : List ArtifactVersion) : Nat :=
  versions.foldl (fun acc v => Nat.max acc v.version) 0

/-- `ArtifactVersionStore.save_artifact_version` acting on the (possibly
absent) metadata document; returns the updated document and the handle. -/
def save_artifact_version (artifact_id : String) (meta : Option ArtifactMetadata)
    (parent_version : Option Nat) : ArtifactMetadata × String :=
  let base : ArtifactMetadata :=
    match meta with
    | none => ⟨artifact_id, 1, []⟩
    | some m => { m with current_version := m.current_version + 1 }
  let new_version := base.current_version
  let handle := generate_handle artifact_id new_version
  let vmeta : ArtifactVersion := ⟨new_version, parent_version, handle⟩
  ({ base with versions := base.versions ++ [vmeta] }, handle)

/-- `ArtifactVersionStore.delete_artifact_version`: `False` when the
artifact or the version is unknown; otherwise remove the version, and either
reset `current_version` to the maximum remaining version or, when none
remain, delete the artifact directory (the metadata becomes absent). -/
def delete_artifact_version (meta : Option ArtifactMetadata) (version : Nat) :
    Option ArtifactMetadata × Bool :=
  match meta with
  | none => (none, false)
  | some m =>
    if m.versions.all (fun v => v.version ≠ version) then (some m, false)
    else
      let remaining := m.versions.filter (fun v => v.version ≠ version)
      if remaining.isEmpty then (none, true)
      else
        (some { m with versions := remaining, current_version := maxVersionOf remaining }, true)

/-- The store operations on one artifact that mutate its metadata. -/
inductive ArtifactOp where
  | save (parent_version : Option Nat) : ArtifactOp
  | delete (version : Nat) : ArtifactOp
deriving Repr, DecidableEq

/-- Run a sequence of store operations against one artifact's metadata. -/
def runArtifactOps (artifact_id : String) : List ArtifactOp →
    Option ArtifactMetadata → Option ArtifactMetadata
  | [], meta => meta
  | op :: rest, meta =>
    runArtifactOps artifact_id rest
      (match op with
       | .save pv => some (save_artifact_version artifact_id meta pv).1
       | .delete v => (delete_artifact_version meta v).1)

/-! ## Worker agent ReAct loop (`agent_react_loop.py`)

The loop is embedded as a state machine over the controller's mutable
fields.  External effects are oracles supplied as parameters: `llm` maps the
iteration number to the parsed `AgentReasoning` (LLM call, prompt building
and response parsing, including the parse-failure fallbacks, all end in such
a value), and `validate` is the schema validator `validate_agent_output`
(`false` = `SchemaValidationError`).  Events are identified by type and the
iteration that emitted them; timestamps and payload details are omitted.
Context compilation only shapes the prompt behind the `llm` oracle. -/

/-- An event written to storage and the progress store. -/
structure EventRec where
  event_type : String
  iteration : Nat
deriving Repr, DecidableEq

/-- A tool invocation request from the agent. -/
structure ToolRequest where
  tool_id : String
  parameters : Json

/-- The agent's decided action. -/
inductive WorkerAction where
  | use_tools (tool_requests : List ToolRequest) : WorkerAction
  | final_output (output : Option Dict) : WorkerAction

/-- The parsed LLM reasoning (the reasoning text itself is prompt-only). -/
structure AgentReasoning where
  action : WorkerAction

/-- The dict `_invoke_tool` returns. -/
structure ToolOutcome where
  success : Bool
  result : Json

/-- `AgentReActResult`, with the dual-written event log carried alongside
for observability statements. -/
structure AgentReActResult where
  agent_id : String
  status : String
  output : Option Dict
  iterations_used : Nat
  tool_calls_made : Nat
  error : Option String
  warnings : List String
  events : List EventRec

/-- The controller's mutable fields. -/
structure WorkerState where
  iteration : Nat
  validation_failures : Nat
  tool_calls_made : Nat
  observations : List Json
  enforcer : EnforcerState
  warnings : List String
  events : List EventRec

/-- The environment of one `AgentReActLoopController`. -/
structure WorkerParams where
  agent_id : String
  max_iterations : Nat
  validation_failure_limit : Nat
  gov : Option GovernancePolicies
  llm : Nat → AgentReasoning
  validate : Dict → Bool
  has_tools_client : Bool

/-- `AgentReActLoopController._invoke_tool`: with no tools client the
phase-2 stub succeeds; with one, the source raises `NotImplementedError`
(the real call is a commented-out phase-4 integration point). -/
def invoke_tool (has_tools_client : Bool) (tool_id : String) : Except String ToolOutcome :=
  if has_tools_client then .error "NotImplementedError: Tools Gateway integration in Phase 4"
  else .ok ⟨true, Json.obj [("stub", .bool true), ("tool", .str tool_id)]⟩

/-- `AgentReActLoopController._execute_tools`: governance-check each
request, invoke allowed tools, accumulate observations; denials and tool
errors clear the success flag but the batch continues.  A raised exception
propagates to `execute`'s handler. -/
def execute_tools (P : WorkerParams) :
    WorkerState → Bool → List ToolRequest → Except String (WorkerState × Bool)
  | st, all_success, [] => .ok (st, all_success)
  | st, all_success, req :: rest =>
    let (res, enf) := check_tool_access P.gov st.enforcer P.agent_id req.tool_id
    let st := { st with enforcer := enf }
    if !res.allowed then
      execute_tools P
        { st with events := st.events ++ [⟨"tool_denied", st.iteration⟩] } false rest
    else
      match invoke_tool P.has_tools_client req.tool_id with
      | .error e => .error e
      | .ok outcome =>
        if outcome.success then
          let obs := Json.obj [("iteration", .num st.iteration),
                               ("tool_id", .str req.tool_id),
                               ("parameters", req.parameters),
                               ("result", outcome.result)]
          execute_tools P
            { st with observations := st.observations ++ [obs],
                      events := st.events ++ [⟨"tool_invocation", st.iteration⟩],
                      tool_calls_made := st.tool_calls_made + 1 } all_success rest
        else
          execute_tools P
            { st with events := st.events ++ [⟨"tool_error", st.iteration⟩] } false rest

/-- `AgentReActLoopController._validate_output`.  A `None` or empty output
fails the basic null check without counting; a schema failure increments the
per-agent counter, logs `output_validation_failed`, and — once the counter
reaches `validation_failure_limit` — additionally logs
`validation_failure_limit_exceeded`; it still just returns `False`.
A success resets the counter and logs `output_validated`. -/
def validate_output (P : WorkerParams) (st : WorkerState) (output : Option Dict) :
    Bool × WorkerState :=
  match output with
  | none => (false, st)
  | some o =>
    if !dictTruthy o then (false, st)
    else if P.validate o then
      (true, { st with validation_failures := 0,
                       events := st.events ++ [⟨"output_validated", st.iteration⟩] })
    else
      let failures := st.validation_failures + 1
      let evs := st.events ++ [⟨"output_validation_failed", st.iteration⟩] ++
        (if failures ≥ P.validation_failure_limit then
          [⟨"validation_failure_limit_exceeded", st.iteration⟩]
         else [])
      (false, { st with validation_failures := failures, events := evs })

/-- `AgentReActLoopController._extract_partial_output` (the best-effort
output assembled when the loop exhausts without completing). -/
def extract_fallback_output (st : WorkerState) : Option Dict :=
  match st.observations.getLast? with
  | some last =>
    some [("partial", .bool true),
          ("last_observation",
            match last with
            | .obj d => (dictGet d "result").getD .null
            | _ => .null),
          ("iterations_completed", .num st.iteration)]
  | none => some [("partial", .bool true), ("no_output", .bool true)]

/-- The fall-through exit of `execute` (loop exhausted without a validated
final output). -/
def worker_incomplete (P : WorkerParams) (st : WorkerState) : AgentReActResult :=
  { agent_id := P.agent_id
    status := "incomplete"
    output := extract_fallback_output st
    iterations_used := st.iteration
    tool_calls_made := st.tool_calls_made
    error := none
    warnings := st.warnings ++ ["Agent reached max iterations without completing"]
    events := st.events ++ [⟨"agent_incomplete", st.iteration⟩] }

/-- The `except` exit of `execute`. -/
def worker_error (P : WorkerParams) (st : WorkerState) (e : String) : AgentReActResult :=
  { agent_id := P.agent_id
    status := "error"
    output := none
    iterations_used := st.iteration
    tool_calls_made := st.tool_calls_made
    error := some e
    warnings := []
    events := st.events ++ [⟨"agent_error", st.iteration⟩] }

/-- The `while self.iteration < max_iterations` body of
`AgentReActLoopController.execute`.  The fuel bounds the number of loop
passes; since every pass increments `iteration`, fuel `max_iterations`
makes the fuel-out case coincide with the guard-false case. -/
def worker_execute_loop (P : WorkerParams) : WorkerState → Nat → AgentReActResult
  | st, 0 => worker_incomplete P st
  | st, fuel + 1 =>
    if st.iteration < P.max_iterations then
      let st := { st with iteration := st.iteration + 1 }
      -- `check_iteration_limit`: denies iff `current_iteration >= max_iterations`
      if st.iteration ≥ P.max_iterations then
        let v : PolicyViolation := ⟨"iteration_limit_exceeded", P.agent_id, P.agent_id⟩
        worker_incomplete P
          { st with
            enforcer := { st.enforcer with
              policy_violations := st.enforcer.policy_violations ++ [v] }
            events := st.events ++ [⟨"iteration_limit_exceeded", st.iteration⟩]
            warnings := st.warnings ++ ["Max iterations reached"] }
      else
        let r := P.llm st.iteration
        let st := { st with events := st.events ++ [⟨"agent_reasoning", st.iteration⟩] }
        match r.action with
        | .use_tools reqs =>
          (match execute_tools P st true reqs with
           | .error e => worker_error P st e
           | .ok (st, ok) =>
             let st :=
               if ok then st
               else { st with warnings := st.warnings ++ ["Some tool executions failed"] }
             worker_execute_loop P st fuel)
        | .final_output output =>
          let (ok, st) := validate_output P st output
          if ok then
            { agent_id := P.agent_id
              status := "completed"
              output := output
              iterations_used := st.iteration
              tool_calls_made := st.tool_calls_made
              error := none
              warnings := st.warnings
              events := st.events ++ [⟨"agent_completed", st.iteration⟩] }
          else
            worker_execute_loop P
              { st with warnings := st.warnings ++ ["Output validation failed, continuing loop"] }
              fuel
    else worker_incomplete P st

/-- `AgentReActLoopController.execute` from a fresh controller. -/
def worker_execute (P : WorkerParams) : AgentReActResult :=
  worker_execute_loop P
    { iteration := 0, validation_failures := 0, tool_calls_made := 0,
      observations := [], enforcer := EnforcerState.init,
      warnings := [], events := [⟨"agent_started", 0⟩] }
    P.max_iterations

/-- Count the events of a given type in a log. -/
def countEvents (events : List EventRec) (event_type : String) : Nat :=
  events.countP (fun e => e.event_type = event_type)

/-! ## Orchestrator runner (`orchestrator_runner.py`)

Same embedding style as the worker loop: the per-runner mutable fields are
the state, and the LLM, the spawned workers and the humans resolving
checkpoints are oracles.  `_wait_for_checkpoint_resolution` blocks until a
resolution exists (human or timeout synthesized), so the oracle
`resolutions` indexes the waits in order.  Observations are only fed back
into the LLM prompt (an oracle here), so just their count is tracked.
Strings the source builds with f-string interpolation (warning texts,
validation reasons) are carried in abbreviated constant form; no verified
property inspects them. -/

mutual
/-- Python `str(...)` for the JSON values used here (ASCII, quote-free
strings — true of everything these proofs evaluate). -/
def pyRepr : Json → String
  | .null => "None"
  | .bool true => "True"
  | .bool false => "False"
  | .num n => toString n
  | .str s => "\x27" ++ s ++ "\x27"
  | .arr items => "[" ++ pyReprArr items ++ "]"
  | .obj fields => "\x7b" ++ pyReprObj fields ++ "\x7d"

def pyReprArr : List Json → String
  | [] => ""
  | [x] => pyRepr x
  | x :: y :: rest => pyRepr x ++ ", " ++ pyReprArr (y :: rest)

def pyReprObj : List (String × Json) → String
  | [] => ""
  | [(k, v)] => "\x27" ++ k ++ "\x27: " ++ pyRepr v
  | (k, v) :: kv :: rest => "\x27" ++ k ++ "\x27: " ++ pyRepr v ++ ", " ++ pyReprObj (kv :: rest)
end

/-- Generic association lookup (Python `d.get(k)` over a non-JSON dict). -/
def assocGet {α : Type} (l : List (String × α)) (k : String) : Option α :=
  match l with
  | [] => none
  | (k', v) :: rest => if k' = k then some v else assocGet rest k

/-- Generic association update (Python `d[k] = v`). -/
def assocSet {α : Type} (l : List (String × α)) (k : String) (v : α) : List (String × α) :=
  match l with
  | [] => [(k, v)]
  | (k', v') :: rest => if k' = k then (k, v) :: rest else (k', v') :: assocSet rest k v

/-- An agent invocation request from the orchestrator's LLM (the
accompanying reasoning text only reaches prompts and event payloads). -/
structure AgentInvocationRequest where
  agent_id : String

/-- The orchestrator's decided action. -/
inductive OrchestratorAction where
  | invoke_agents (agent_requests : List AgentInvocationRequest) : OrchestratorAction
  | workflow_complete (evidence_map : Option Dict) : OrchestratorAction

/-- The parsed orchestrator LLM response. -/
structure OrchestratorReasoning where
  action : OrchestratorAction

/-- A checkpoint resolution (human or synthesized on timeout). -/
structure CheckpointResolution where
  action : String
  comments : Option String
  data_updates : Option Dict

/-- The fields of a workflow `CheckpointConfig` that drive the runner. -/
structure CheckpointConfig where
  checkpoint_id : String
  trigger_point : String
  agent_id : Option String
  trigger_condition : Option TriggerCondition

/-- The `completion_criteria` dict of a workflow, with the source's `.get`
defaults; `none` at the use site models a falsy (absent or empty) dict. -/
structure CompletionCriteria where
  required_agents_executed : List String
  min_agents_executed : Nat
  required_outputs : List String

/-- `OrchestratorResult` with the event log carried alongside. -/
structure OrchestratorResult where
  workflow_id : String
  status : String
  completion_reason : Option String
  evidence_map : Option Dict
  agents_executed : List String
  total_iterations : Nat
  total_agent_invocations : Nat
  error : Option String
  warnings : List String
  events : List EventRec

/-- The runner's mutable fields (plus the index of the next checkpoint
resolution to be consumed from the oracle). -/
structure OrchestratorState where
  iteration : Nat
  enforcer : EnforcerState
  agent_invocations : List (String × Nat)
  prior_outputs : List (String × Dict)
  agents_executed_order : List String
  observation_count : Nat
  warnings : List String
  events : List EventRec
  res_idx : Nat

/-- The environment of one `OrchestratorRunner`.  Worker outputs are stored
into `prior_outputs` only on the completed/incomplete paths, where the
source always produces a dict (validated output resp.
`_extract_partial_output`), so the oracle's stored output is read with a
`[]` fallback that is never exercised by a faithful oracle. -/
structure OrchestratorParams where
  workflow_id : String
  hitl_checkpoints : List CheckpointConfig
  completion_criteria : Option CompletionCriteria
  max_iterations : Nat
  max_agent_invocations : Nat
  gov : Option GovernancePolicies
  llm : Nat → OrchestratorReasoning
  workerRun : String → AgentReActResult
  resolutions : Nat → CheckpointResolution

/-- Fresh runner state (the `orchestrator_started` event is logged on
entry to `execute`). -/
def OrchestratorState.init : OrchestratorState :=
  { iteration := 0, enforcer := EnforcerState.init, agent_invocations := [],
    prior_outputs := [], agents_executed_order := [], observation_count := 0,
    warnings := [], events := [⟨"orchestrator_started", 0⟩], res_idx := 0 }

/-- Consume the next checkpoint resolution from the oracle (the blocking
`_wait_for_checkpoint_resolution`, which also logs the resolution event). -/
def take_resolution (P : OrchestratorParams) (st : OrchestratorState) :
    CheckpointResolution × OrchestratorState :=
  (P.resolutions st.res_idx,
   { st with res_idx := st.res_idx + 1,
             events := st.events ++ [⟨"checkpoint_resolved", st.iteration⟩] })

/-- `OrchestratorRunner._check_pre_workflow_checkpoint`: the first
`pre_workflow` config whose trigger condition fires against the original
input (the agent output is `None` at this point). -/
def find_pre_workflow_checkpoint (cfgs : List CheckpointConfig) (original_input : Dict) :
    Option CheckpointConfig :=
  cfgs.find? (fun c => c.trigger_point = "pre_workflow" &&
    evaluate_checkpoint_condition c.trigger_condition none original_input)

/-- `OrchestratorRunner._check_after_agent_checkpoint` for a truthy agent
output: the first matching `after_agent` config whose condition fires
against that output (`original_input` is passed as `\x7b\x7d`). -/
def find_after_agent_checkpoint (cfgs : List CheckpointConfig) (agent_id : String)
    (agent_output : Dict) : Option CheckpointConfig :=
  cfgs.find? (fun c => c.trigger_point = "after_agent" && c.agent_id = some agent_id &&
    evaluate_checkpoint_condition c.trigger_condition (some agent_output) [])

/-- `OrchestratorRunner._execute_agent_invocations`: governance check, the
workflow-wide invocation cap (which `break`s out of the batch), then the
worker run with its three outcome classes. -/
def execute_agent_invocations (P : OrchestratorParams) :
    OrchestratorState → Bool → List AgentInvocationRequest → OrchestratorState × Bool
  | st, all_success, [] => (st, all_success)
  | st, all_success, req :: rest =>
    let (res, enf) := check_agent_invocation P.gov st.enforcer "orchestrator_agent" req.agent_id
    let st := { st with enforcer := enf }
    if !res.allowed then
      execute_agent_invocations P
        { st with events := st.events ++ [⟨"agent_invocation_denied", st.iteration⟩] } false rest
    else if sumCounts st.agent_invocations ≥ P.max_agent_invocations then
      ({ st with events := st.events ++ [⟨"workflow_limit_exceeded", st.iteration⟩] }, false)
    else
      let result := P.workerRun req.agent_id
      if result.status = "completed" then
        execute_agent_invocations P
          { st with
            prior_outputs := assocSet st.prior_outputs req.agent_id (result.output.getD []),
            agents_executed_order := st.agents_executed_order ++ [req.agent_id],
            agent_invocations := setCount st.agent_invocations req.agent_id
              (getCount st.agent_invocations req.agent_id + 1),
            observation_count := st.observation_count + 1,
            events := st.events ++ [⟨"agent_invocation_completed", st.iteration⟩] }
          all_success rest
      else if result.status = "incomplete" then
        execute_agent_invocations P
          { st with
            prior_outputs := assocSet st.prior_outputs req.agent_id (result.output.getD []),
            agents_executed_order := st.agents_executed_order ++ [req.agent_id],
            events := st.events ++ [⟨"agent_invocation_incomplete", st.iteration⟩] }
          false rest
      else
        execute_agent_invocations P
          { st with events := st.events ++ [⟨"agent_invocation_error", st.iteration⟩] } false rest

/-- The after-agent checkpoint sweep of the `invoke_agents` branch; a
`cancel_workflow` resolution returns the cancelled result out of `execute`
(the `Except` error). -/
def after_agent_checks (P : OrchestratorParams) :
    OrchestratorState → List AgentInvocationRequest → Except OrchestratorResult OrchestratorState
  | st, [] => .ok st
  | st, req :: rest =>
    match assocGet st.prior_outputs req.agent_id with
    | none => after_agent_checks P st rest
    | some d =>
      if !dictTruthy d then after_agent_checks P st rest
      else
        match find_after_agent_checkpoint P.hitl_checkpoints req.agent_id d with
        | none => after_agent_checks P st rest
        | some _cfg =>
          let st := { st with events := st.events ++ [⟨"checkpoint_created", st.iteration⟩] }
          let (r, st) := take_resolution P st
          if r.action = "cancel_workflow" then
            .error
              { workflow_id := P.workflow_id
                status := "cancelled"
                completion_reason := some "hitl_cancelled_after_agent"
                evidence_map := none
                agents_executed := st.agents_executed_order
                total_iterations := st.iteration
                total_agent_invocations := sumCounts st.agent_invocations
                error := none
                warnings := ["Workflow cancelled at checkpoint"]
                events := st.events }
          else
            let st :=
              match r.data_updates with
              | some du =>
                if dictTruthy du then
                  { st with prior_outputs := assocSet st.prior_outputs req.agent_id (dictUpdate d du) }
                else st
              | none => st
            after_agent_checks P st rest

/-- `OrchestratorRunner._validate_completion_criteria`, returning `none`
for valid and the failure reason otherwise. -/
def validate_completion_criteria (cc : Option CompletionCriteria)
    (agents_executed_order : List String) (evidence_map : Option Dict) : Option String :=
  match cc with
  | none => none
  | some c =>
    match c.required_agents_executed.find? (fun a => !agents_executed_order.contains a) with
    | some a => some ("Required agent not executed: " ++ a)
    | none =>
      if agents_executed_order.length < c.min_agents_executed then
        some "Too few agents executed"
      else
        match evidence_map with
        | none =>
          if c.required_outputs.isEmpty then none
          else some "Evidence map missing but required outputs specified"
        | some em =>
          if !dictTruthy em then
            if c.required_outputs.isEmpty then none
            else some "Evidence map missing but required outputs specified"
          else
            match c.required_outputs.find? (fun k => (dictGet em k).isNone) with
            | some k => some ("Required output missing: " ++ k)
            | none => none

/-- `OrchestratorRunner._build_evidence_map` (tier-3 fallback compilation). -/
def build_evidence_map (prior_outputs : List (String × Dict))
    (agents_executed_order : List String) : Dict :=
  match assocGet prior_outputs "explainability_agent" with
  | some out => out
  | none =>
    let decision : Json :=
      match assocGet prior_outputs "recommendation_agent" with
      | some rec =>
        Json.obj [("outcome", (dictGet rec "recommended_action").getD .null),
                  ("confidence", (dictGet rec "confidence").getD .null),
                  ("recommended_action", (dictGet rec "recommended_action").getD .null)]
      | none => Json.obj []
    [("decision", decision),
     ("supporting_evidence", .arr (prior_outputs.map (fun p =>
        Json.obj [("source", .str p.1),
                  ("evidence_type", .str "agent_output"),
                  ("summary", .str ((pyRepr (Json.obj p.2)).take 200))]))),
     ("assumptions", .arr []),
     ("limitations", .arr [.str "Incomplete workflow - evidence map auto-generated"]),
     ("agent_chain", .arr (agents_executed_order.map .str))]

/-- `OrchestratorRunner._check_workflow_timeout`: elapsed-time tracking is
a TODO in the source; it always returns `False`. -/
def check_workflow_timeout : Bool := false

/-- The tier-3 forced-completion exit (iteration cap reached). -/
def tier3_result (P : OrchestratorParams) (st : OrchestratorState) : OrchestratorResult :=
  { workflow_id := P.workflow_id
    status := "incomplete"
    completion_reason := some "max_iterations_reached"
    evidence_map := some (build_evidence_map st.prior_outputs st.agents_executed_order)
    agents_executed := st.agents_executed_order
    total_iterations := st.iteration
    total_agent_invocations := sumCounts st.agent_invocations
    error := none
    warnings := st.warnings ++ ["Orchestrator reached max iterations without completing"]
    events := st.events ++ [⟨"orchestrator_incomplete", st.iteration⟩] }

/-- The tier-1/2 successful completion result. -/
def completed_result (P : OrchestratorParams) (st : OrchestratorState)
    (evidence_map : Option Dict) : OrchestratorResult :=
  { workflow_id := P.workflow_id
    status := "completed"
    completion_reason := some "all_objectives_achieved"
    evidence_map := evidence_map
    agents_executed := st.agents_executed_order
    total_iterations := st.iteration
    total_agent_invocations := sumCounts st.agent_invocations
    error := none
    warnings := st.warnings
    events := st.events ++ [⟨"orchestrator_completed", st.iteration⟩] }

/-- State pushed back into the loop after a failed completion validation. -/
def invalid_completion_state (st : OrchestratorState) (reason : String) : OrchestratorState :=
  { st with warnings := st.warnings ++ ["Completion validation failed: " ++ reason],
            events := st.events ++ [⟨"completion_validation_failed", st.iteration⟩] }

/-- The `while self.iteration < max_iterations` body of
`OrchestratorRunner.execute`; as for the worker, fuel `max_iterations`
makes the fuel-out case coincide with the guard-false case. -/
def orchestrator_loop (P : OrchestratorParams) (original_input : Dict) :
    OrchestratorState → Nat → OrchestratorResult
  | st, 0 => tier3_result P st
  | st, fuel + 1 =>
    if st.iteration < P.max_iterations then
      let st := { st with iteration := st.iteration + 1 }
      if check_workflow_timeout then
        tier3_result P { st with warnings := st.warnings ++ ["Workflow timeout approaching"] }
      else
        let r := P.llm st.iteration
        let st := { st with events := st.events ++ [⟨"orchestrator_reasoning", st.iteration⟩] }
        match r.action with
        | .invoke_agents reqs =>
          let (st, ok) := execute_agent_invocations P st true reqs
          let st :=
            if ok then st
            else { st with warnings := st.warnings ++ ["Some agent invocations failed"] }
          (match after_agent_checks P st reqs with
           | .error result => result
           | .ok st => orchestrator_loop P original_input st fuel)
        | .workflow_complete evidence_map =>
          match P.hitl_checkpoints.find? (fun c => c.trigger_point = "before_completion") with
          | some _cfg =>
            let st := { st with events := st.events ++ [⟨"checkpoint_created", st.iteration⟩] }
            let (res, st) := take_resolution P st
            if res.action = "reject" then
              orchestrator_loop P original_input
                { st with warnings :=
                    st.warnings ++ ["Completion rejected at checkpoint - continuing workflow"] }
                fuel
            else if res.action = "request_revision" then
              orchestrator_loop P original_input
                { st with observation_count := st.observation_count + 1,
                          warnings :=
                    st.warnings ++ ["Revision requested at checkpoint - continuing workflow"] }
                fuel
            else
              match validate_completion_criteria P.completion_criteria
                  st.agents_executed_order evidence_map with
              | none => completed_result P st evidence_map
              | some reason =>
                orchestrator_loop P original_input (invalid_completion_state st reason) fuel
          | none =>
            match validate_completion_criteria P.completion_criteria
                st.agents_executed_order evidence_map with
            | none => completed_result P st evidence_map
            | some reason =>
              orchestrator_loop P original_input (invalid_completion_state st reason) fuel
    else tier3_result P st

/-- Python `if resolution.data_updates: original_input.update(resolution.data_updates)`:
merge only a truthy update dict. -/
def merge_data_updates (original_input : Dict) (data_updates : Option Dict) : Dict :=
  match data_updates with
  | some du => if dictTruthy du then dictUpdate original_input du else original_input
  | none => original_input

/-- `OrchestratorRunner.execute`: the pre-workflow checkpoint gate, then
the ReAct loop.  A `reject` resolution terminates the run before any agent
is invoked; otherwise truthy `data_updates` are merged into the original
input that the loop receives. -/
def orchestrator_execute (P : OrchestratorParams) (original_input : Dict) :
    OrchestratorResult :=
  match find_pre_workflow_checkpoint P.hitl_checkpoints original_input with
  | some _cfg =>
    let st := { OrchestratorState.init with
      events := OrchestratorState.init.events ++ [⟨"checkpoint_created", 0⟩] }
    let (res, st) := take_resolution P st
    if res.action = "reject" then
      { workflow_id := P.workflow_id
        status := "cancelled"
        completion_reason := some "pre_workflow_rejected"
        evidence_map := none
        agents_executed := []
        total_iterations := 0
        total_agent_invocations := 0
        error := none
        warnings := ["Workflow rejected at pre-workflow checkpoint"]
        events := st.events }
    else
      orchestrator_loop P (merge_data_updates original_input res.data_updates) st
        P.max_iterations
  | none => orchestrator_loop P original_input OrchestratorState.init P.max_iterations

/-! ## Concrete fixtures

Closed inputs used by the counterexample/witness theorems below. -/

/-- Worker environment exhibiting repeated schema-validation failures: the
agent's output schema never validates, the LLM emits a non-empty
`final_output` every iteration, `validation_failure_limit = 2`,
`max_iterations = 5`. -/
def fixtureWorkerParams : WorkerParams :=
  { agent_id := "fraud_agent"
    max_iterations := 5
    validation_failure_limit := 2
    gov := none
    llm := fun _ => ⟨.final_output (some [("fraud_score", .num 1)])⟩
    validate := fun _ => false
    has_tools_client := false }

/-- An `output_based` trigger condition over a field the output lacks. -/
def fixtureCondition : TriggerCondition := ⟨"output_based", "fraud_score > 0.7"⟩

/-- An agent output that does not carry `fraud_score`. -/
def fixtureAgentOutput : Dict := [("other_field", .num 1)]

/-- Governance policies whose HITL role hierarchy grants `senior_adjuster`
the right to act as `adjuster`. -/
def fixtureHitlPolicies : GovernancePolicies :=
  { agent_invocation_rules := []
    agent_tool_rules := []
    max_tool_invocations_per_session := none
    hitl_roles := [⟨"senior_adjuster", ["adjuster"]⟩] }

/-- A context over budget (30 tokens) with two large observations; dropping
one observation leaves 40 estimated tokens, dropping both would leave 15. -/
def fixtureContext : Dict :=
  [("metadata", .obj [("max_context_tokens", .num 30)]),
   ("observations", .arr [.str (String.mk (List.replicate 100 'a')),
                          .str (String.mk (List.replicate 100 'b'))])]

/-- A worker-result oracle that always completes with a small output. -/
def fixtureWorkerRun (agent_id : String) : AgentReActResult :=
  { agent_id := agent_id, status := "completed",
    output := some [("r", Json.num 1)], iterations_used := 1, tool_calls_made := 0,
    error := none, warnings := [], events := [] }

/-- An orchestrator environment with one unconditional pre-workflow
checkpoint whose resolution is `reject`. -/
def fixtureOrchParams : OrchestratorParams :=
  { workflow_id := "claims_processing"
    hitl_checkpoints := [⟨"pre_gate", "pre_workflow", none, none⟩]
    completion_criteria := none
    max_iterations := 3
    max_agent_invocations := 20
    gov := none
    llm := fun _ => ⟨.workflow_complete (some [("decision", Json.str "ok")])⟩
    workerRun := fixtureWorkerRun
    resolutions := fun _ => ⟨"reject", none, none⟩ }

/-- The orchestrator input used with `fixtureOrchParams`. -/
def fixtureInput : Dict := [("claim_id", .str "CLM-001")]

/-- Governance policies with one allow rule per table, for the
default-deny witness. -/
def fixtureAccessPolicies : GovernancePolicies :=
  { agent_invocation_rules := [⟨some "orchestrator_agent", ["intake_agent"], []⟩]
    agent_tool_rules := [⟨some "fraud_agent", ["fraud_rules"], []⟩]
    max_tool_invocations_per_session := none
    hitl_roles := [] }

/-- A single never-expiring memory, for the missing-id deletion witness. -/
def fixtureMemory : Memory :=
  ⟨"mem_20260101_000000_aaaaaaaa", "2026-01-01T00:00:00Z", "fact",
   "useful fact worth keeping", none, ["claims"]⟩

/-- A memory store holding only `fixtureMemory`. -/
def fixtureMemoryStore : MemoryStore :=
  ⟨[fixtureMemory], rebuild_index [fixtureMemory], 0, 0⟩

/-! ## Supporting lemmas -/

/-- Reading back a written counter: the written key yields the written
value, every other key is untouched. -/
theorem getCount_setCount (l : List (String × Nat)) (k : String) (v : Nat) (k' : String) :
    getCount (setCount l k v) k' = if k = k' then v else getCount l k' := by
  induction l with
  | nil => by_cases h : k = k' <;> simp [setCount, getCount, h]
  | cons hd tl ih =>
    obtain ⟨k0, v0⟩ := hd
    by_cases h0 : k0 = k
    · subst h0
      by_cases h : k0 = k' <;> simp [setCount, getCount, h]
    · by_cases h1 : k0 = k'
      · subst h1
        have hkk : ¬ k = k0 := fun hh => h0 hh.symm
        simp [setCount, getCount, h0, hkk]
      · simp [setCount, getCount, h0, h1, ih]

/-- One `check_agent_invocation` call keeps every per-target counter at or
below the duplicate cap when it was there before. -/
theorem check_agent_invocation_counts_bounded (gov : Option GovernancePolicies)
    (st : EnforcerState) (inv tgt : String)
    (h : ∀ t, getCount st.agent_invocation_counts t ≤ max_duplicates) (t : String) :
    getCount (check_agent_invocation gov st inv tgt).2.agent_invocation_counts t ≤
      max_duplicates := by
  unfold check_agent_invocation
  cases hreg : is_agent_invocation_allowed gov inv tgt
  · simpa using h t
  · simp only [Bool.not_true, Bool.false_eq_true, if_false]
    by_cases hc : getCount st.agent_invocation_counts tgt ≥ max_duplicates
    · simpa [hc] using h t
    · simp [hc, getCount_setCount]
      split_ifs with ht
      · omega
      · exact h t

/-- The per-target counter bound is preserved along any sequence of
invocation checks. -/
theorem runInvocationChecks_counts_bounded (gov : Option GovernancePolicies)
    (requests : List (String × String)) :
    ∀ st : EnforcerState, (∀ t, getCount st.agent_invocation_counts t ≤ max_duplicates) →
    ∀ t, getCount (runInvocationChecks gov requests st).agent_invocation_counts t ≤
      max_duplicates := by
  induction requests with
  | nil => intro st h t; simpa [runInvocationChecks] using h t
  | cons req rest ih =>
    obtain ⟨inv, tgt⟩ := req
    intro st h t
    simp only [runInvocationChecks]
    exact ih _ (fun t' => check_agent_invocation_counts_bounded gov st inv tgt h t') t

/-- A rule scan with no applicable allow entry denies. -/
theorem scanAccessRules_no_allow (rules : List AccessRule) (invoker target : String)
    (h : ∀ r ∈ rules, r.agent_id = some invoker → target ∉ r.allowed) :
    scanAccessRules rules invoker target = false := by
  induction rules with
  | nil => rfl
  | cons r rest ih =>
    simp only [scanAccessRules]
    split_ifs with h1 h2 h3
    · rfl
    · exact absurd h3 (h r (List.mem_cons_self r rest) h1)
    · exact ih (fun r' hr' => h r' (List.mem_cons_of_mem r hr'))
    · exact ih (fun r' hr' => h r' (List.mem_cons_of_mem r hr'))

/-- Appending one version to the list bumps the maximum accordingly. -/
theorem maxVersionOf_concat (l : List ArtifactVersion) (v : ArtifactVersion) :
    maxVersionOf (l ++ [v]) = Nat.max (maxVersionOf l) v.version := by
  simp [maxVersionOf, List.foldl_append]

/-- Invariant of the artifact store: any reachable metadata document has a
non-empty version list whose maximum is `current_version`. -/
theorem artifact_run_inv (artifact_id : String) (ops : List ArtifactOp) :
    ∀ meta : Option ArtifactMetadata,
      (∀ m, meta = some m → m.versions ≠ [] ∧ m.current_version = maxVersionOf m.versions) →
      ∀ m', runArtifactOps artifact_id ops meta = some m' →
        m'.versions ≠ [] ∧ m'.current_version = maxVersionOf m'.versions := by
  induction ops with
  | nil =>
    intro meta h m' hm'
    exact h m' hm'
  | cons op rest ih =>
    intro meta h m' hm'
    simp only [runArtifactOps] at hm'
    cases op with
    | save pv =>
      refine ih _ ?_ m' hm'
      intro m hm
      cases meta with
      | none =>
        cases hm
        constructor
        · simp [save_artifact_version]
        · simp [save_artifact_version, maxVersionOf]
      | some m0 =>
        obtain ⟨-, hmax⟩ := h m0 rfl
        cases hm
        constructor
        · simp [save_artifact_version]
        · simp only [save_artifact_version, maxVersionOf_concat]
          simp [← hmax]
    | delete v =>
      refine ih _ ?_ m' hm'
      intro m hm
      cases meta with
      | none => simp [delete_artifact_version] at hm
      | some m0 =>
        simp only [delete_artifact_version] at hm
        by_cases h1 : (m0.versions.all fun x => decide (x.version ≠ v)) = true
        · rw [if_pos h1] at hm
          injection hm with h3
          subst h3
          exact h _ rfl
        · rw [if_neg h1] at hm
          by_cases h2 :
              (List.filter (fun x => decide (x.version ≠ v)) m0.versions).isEmpty = true
          · rw [if_pos h2] at hm
            simp at hm
          · rw [if_neg h2] at hm
            injection hm with h3
            subst h3
            refine ⟨?_, rfl⟩
            simpa [List.isEmpty_iff] using h2

/-! ## Claim theorems -/

/-- C1: `check_agent_invocation` allows exactly when the registry permits
the invocation and the per-target counter is below `max_duplicates` (2); it
bumps the counter only on an allowed result; and over any sequence of
checks in one session the counter of every target stays at most 2. -/
theorem agent_invocation_governance (gov : Option GovernancePolicies) :
    (∀ (st : EnforcerState) (inv tgt : String),
      ((check_agent_invocation gov st inv tgt).1.allowed = true ↔
        (is_agent_invocation_allowed gov inv tgt = true ∧
         getCount st.agent_invocation_counts tgt < max_duplicates))) ∧
    (∀ (st : EnforcerState) (inv tgt : String),
      getCount (check_agent_invocation gov st inv tgt).2.agent_invocation_counts tgt =
        (if (check_agent_invocation gov st inv tgt).1.allowed = true
         then getCount st.agent_invocation_counts tgt + 1
         else getCount st.agent_invocation_counts tgt)) ∧
    (∀ (requests : List (String × String)) (tgt : String),
      getCount (runInvocationChecks gov requests
        EnforcerState.init).agent_invocation_counts tgt ≤ max_duplicates) := by
  refine ⟨?_, ?_, ?_⟩
  · intro st inv tgt
    unfold check_agent_invocation
    cases hreg : is_agent_invocation_allowed gov inv tgt
    · simp [hreg]
    · simp only [Bool.not_true, Bool.false_eq_true, if_false]
      by_cases hc : getCount st.agent_invocation_counts tgt ≥ max_duplicates
      · simp [hc]
      · simp [hc]
        omega
  · intro st inv tgt
    unfold check_agent_invocation
    cases hreg : is_agent_invocation_allowed gov inv tgt
    · simp
    · simp only [Bool.not_true, Bool.false_eq_true, if_false]
      by_cases hc : getCount st.agent_invocation_counts tgt ≥ max_duplicates
      · simp [hc]
      · simp [hc, getCount_setCount]
  · intro requests tgt
    refine runInvocationChecks_counts_bounded gov requests EnforcerState.init ?_ tgt
    intro t
    simp [EnforcerState.init, getCount, max_duplicates]

/-- C2: evaluation of the worker loop on an agent whose outputs never
validate (`validation_failure_limit = 2`, `max_iterations = 5`).  The
`validation_failure_limit_exceeded` event fires at the second failure
(iteration 2), yet the loop keeps iterating — two further validation
attempts happen at iterations 3 and 4 — and the agent only terminates as
`incomplete` when the iteration cap fires at iteration 5, contradicting the
specified behavior of terminating as `incomplete` upon reaching the
failure limit. -/
theorem worker_validation_limit_behavior :
    (worker_execute fixtureWorkerParams).status = "incomplete" ∧
    (worker_execute fixtureWorkerParams).iterations_used = 5 ∧
    countEvents (worker_execute fixtureWorkerParams).events "output_validation_failed" = 4 ∧
    countEvents (worker_execute fixtureWorkerParams).events
      "validation_failure_limit_exceeded" = 3 ∧
    (worker_execute fixtureWorkerParams).events.map (fun e => (e.event_type, e.iteration)) =
      [("agent_started", 0),
       ("agent_reasoning", 1), ("output_validation_failed", 1),
       ("agent_reasoning", 2), ("output_validation_failed", 2),
         ("validation_failure_limit_exceeded", 2),
       ("agent_reasoning", 3), ("output_validation_failed", 3),
         ("validation_failure_limit_exceeded", 3),
       ("agent_reasoning", 4), ("output_validation_failed", 4),
         ("validation_failure_limit_exceeded", 4),
       ("iteration_limit_exceeded", 5), ("agent_incomplete", 5)] :=
  ⟨rfl, rfl, rfl, rfl, rfl⟩

/-- C3 counterexample: an `output_based` condition `fraud_score > 0.7` whose
expression parses, evaluated against an output that lacks the field, does
NOT trigger (the claim asserts the missing-field default is to trigger). -/
theorem checkpoint_missing_field_counterexample :
    evaluate_checkpoint_condition (some fixtureCondition) (some fixtureAgentOutput) [] = false ∧
    (parseCondExpr fixtureCondition.condition).isSome = true ∧
    resolvePath (Json.obj fixtureAgentOutput) ["fraud_score"] = none :=
  ⟨rfl, rfl, rfl⟩

/-- C3 (amended): for `output_based`/`input_based` trigger conditions, an
expression the restricted parser cannot parse defaults to trigger
(`true`), while a parsed expression whose dotted field path is missing
from the data defaults to NOT trigger (`false`). -/
theorem checkpoint_condition_defaults (expression : String) (data : Dict) :
    (parseCondExpr expression = none → evaluate_expression expression data = true) ∧
    (∀ path op lit, parseCondExpr expression = some (path, op, lit) →
      resolvePath (Json.obj data) path = none →
      evaluate_expression expression data = false) := by
  constructor
  · intro h
    unfold evaluate_expression
    rw [h]
  · intro path op lit hp hr
    unfold evaluate_expression
    rw [hp]
    simp [hr]

/-- C3 witness: the unparseable `score >> oops` triggers; the parseable
`fraud_score > 0.7` over an output lacking the field does not. -/
theorem checkpoint_condition_defaults_witness :
    evaluate_expression "score >> oops" fixtureAgentOutput = true ∧
    evaluate_expression "fraud_score > 0.7" fixtureAgentOutput = false :=
  ⟨(checkpoint_condition_defaults "score >> oops" fixtureAgentOutput).1 rfl,
   (checkpoint_condition_defaults "fraud_score > 0.7" fixtureAgentOutput).2
     ["fraud_score"] ">" (.numlike "0.7") rfl rfl⟩

/-- C4: `check_hitl_access` denies a user whose `can_act_as` hierarchy
entry grants the required role (the `policies.get("policies", ...)` read
raises on the pydantic model and the `except` falls back to deny); the
spec-modelled check grants it; and in general the implementation reduces
to admin-or-exact-match. -/
theorem hitl_hierarchy_never_grants :
    check_hitl_access (some fixtureHitlPolicies) "senior_adjuster" "adjuster" = false ∧
    check_hitl_access_spec (some fixtureHitlPolicies) "senior_adjuster" "adjuster" = true ∧
    (∀ (gov : Option GovernancePolicies) (user_role required_role : String),
      check_hitl_access gov user_role required_role =
        (decide (user_role = "admin") || decide (user_role = required_role))) := by
  refine ⟨rfl, rfl, ?_⟩
  intro gov u r
  unfold check_hitl_access hitlHierarchyLookup
  by_cases h1 : u = "admin" <;> by_cases h2 : u = r <;> simp [h1, h2]

/-- C5: on a context over its 30-token budget whose two observations are
each large, the enforcer removes only the older observation (the loop
guard compares against the shrinking list) and returns a context still
estimated at 40 tokens, although dropping both observations would have
brought it to 15 ≤ 30.  The spec requires truncation to continue until
the context fits whenever that is possible. -/
theorem token_budget_truncation_stops_early :
    getMaxContextTokens fixtureContext = some 30 ∧
    estimate_tokens fixtureContext = 66 ∧
    estimate_tokens (token_budget_process true fixtureContext) = 40 ∧
    estimate_tokens (dictSet fixtureContext "observations" (.arr [])) = 15 ∧
    (match dictGet (token_budget_process true fixtureContext) "observations" with
     | some (.arr l) => l.length
     | _ => 0) = 1 ∧
    token_budget_process false fixtureContext = fixtureContext ∧
    token_budget_process true (dictSet fixtureContext "observations" (.arr [])) =
      dictSet fixtureContext "observations" (.arr []) :=
  ⟨rfl, rfl, rfl, rfl, rfl, rfl, rfl⟩

/-- C6: when a pre-workflow checkpoint triggers, a `reject` resolution
terminates the run as `cancelled` / `pre_workflow_rejected` with no agents
executed; any other resolution enters the ReAct loop on the original input
merged with the resolution's `data_updates`. -/
theorem pre_workflow_checkpoint_gate (P : OrchestratorParams) (input : Dict)
    (cfg : CheckpointConfig)
    (hfind : find_pre_workflow_checkpoint P.hitl_checkpoints input = some cfg) :
    ((P.resolutions 0).action = "reject" →
      (orchestrator_execute P input).status = "cancelled" ∧
      (orchestrator_execute P input).completion_reason = some "pre_workflow_rejected" ∧
      (orchestrator_execute P input).agents_executed = [] ∧
      (orchestrator_execute P input).total_agent_invocations = 0) ∧
    ((P.resolutions 0).action ≠ "reject" →
      orchestrator_execute P input =
        orchestrator_loop P (merge_data_updates input (P.resolutions 0).data_updates)
          { iteration := 0, enforcer := EnforcerState.init, agent_invocations := [],
            prior_outputs := [], agents_executed_order := [], observation_count := 0,
            warnings := [],
            events := [⟨"orchestrator_started", 0⟩, ⟨"checkpoint_created", 0⟩,
                       ⟨"checkpoint_resolved", 0⟩],
            res_idx := 1 } P.max_iterations) := by
  unfold orchestrator_execute
  rw [hfind]
  constructor
  · intro hrej
    simp [take_resolution, OrchestratorState.init, hrej]
  · intro hne
    simp [take_resolution, OrchestratorState.init, hne]

/-- C6 witness: the fixture run with an unconditional pre-workflow
checkpoint resolved `reject` is cancelled with no agents executed. -/
theorem pre_workflow_checkpoint_gate_witness :
    (orchestrator_execute fixtureOrchParams fixtureInput).status = "cancelled" ∧
    (orchestrator_execute fixtureOrchParams fixtureInput).completion_reason =
      some "pre_workflow_rejected" ∧
    (orchestrator_execute fixtureOrchParams fixtureInput).agents_executed = [] := by
  have h := (pre_workflow_checkpoint_gate fixtureOrchParams fixtureInput
    ⟨"pre_gate", "pre_workflow", none, none⟩ rfl).1 rfl
  exact ⟨h.1, h.2.1, h.2.2.1⟩

/-- C7: from any reachable artifact state, `save_artifact_version` assigns
`max(existing versions) + 1` (1 when the artifact has no versions), the
returned handle is `artifact://{id}/v{version}`, and the assigned number
is the one appended — deletion keeps this true because it resets
`current_version` to the maximum remaining version. -/
theorem artifact_version_numbering (artifact_id : String) (ops : List ArtifactOp)
    (parent_version : Option Nat) :
    (save_artifact_version artifact_id (runArtifactOps artifact_id ops none)
        parent_version).1.current_version =
      (match runArtifactOps artifact_id ops none with
       | none => 1
       | some m => maxVersionOf m.versions + 1) ∧
    (save_artifact_version artifact_id (runArtifactOps artifact_id ops none)
        parent_version).2 =
      "artifact://" ++ artifact_id ++ "/v" ++
        toString (save_artifact_version artifact_id (runArtifactOps artifact_id ops none)
          parent_version).1.current_version ∧
    ((save_artifact_version artifact_id (runArtifactOps artifact_id ops none)
        parent_version).1.versions.getLast?).map (fun v => v.version) =
      some (save_artifact_version artifact_id (runArtifactOps artifact_id ops none)
        parent_version).1.current_version := by
  refine ⟨?_, rfl, ?_⟩
  · cases hmeta : runArtifactOps artifact_id ops none with
    | none => simp [save_artifact_version]
    | some m =>
      obtain ⟨-, hmax⟩ := artifact_run_inv artifact_id ops none
        (fun m h => by cases h) m hmeta
      simp [save_artifact_version, ← hmax]
  · cases hmeta : runArtifactOps artifact_id ops none with
    | none => simp [save_artifact_version]
    | some m => simp [save_artifact_version]

/-- C8: `apply_retention_policy` is idempotent at a fixed evaluation time —
the second run deletes nothing, returns 0, and leaves the store exactly as
the first run left it. -/
theorem retention_policy_idempotent (s : MemoryStore) (now : Int) :
    (apply_retention_policy (apply_retention_policy s now).1 now).2 = 0 ∧
    (apply_retention_policy (apply_retention_policy s now).1 now).1 =
      (apply_retention_policy s now).1 := by
  have happly : ∀ s' : MemoryStore,
      s'.memories.countP (fun m => memoryExpired now m) = 0 →
      apply_retention_policy s' now = (s', 0) := by
    intro s' h
    simp [apply_retention_policy, h]
  have hzero : ((apply_retention_policy s now).1).memories.countP
      (fun m => memoryExpired now m) = 0 := by
    by_cases h : s.memories.countP (fun m => memoryExpired now m) > 0
    · simp only [apply_retention_policy]
      rw [if_pos h]
      simp [List.countP_eq_zero, List.mem_filter]
    · rw [happly s (Nat.eq_zero_of_not_pos h)]
      exact Nat.eq_zero_of_not_pos h
  rw [happly _ hzero]
  exact ⟨rfl, rfl⟩

/-- C9: with no governance-policies document both registry access checks
allow every pair; with a document loaded, any pair not named in an allow
list of a rule matching the invoker is denied. -/
theorem registry_default_access_policy :
    (∀ invoker target, is_agent_invocation_allowed none invoker target = true) ∧
    (∀ agent tool, is_tool_access_allowed none agent tool = true) ∧
    (∀ (g : GovernancePolicies) (invoker target : String),
      (∀ r ∈ g.agent_invocation_rules, r.agent_id = some invoker → target ∉ r.allowed) →
      is_agent_invocation_allowed (some g) invoker target = false) ∧
    (∀ (g : GovernancePolicies) (agent tool : String),
      (∀ r ∈ g.agent_tool_rules, r.agent_id = some agent → tool ∉ r.allowed) →
      is_tool_access_allowed (some g) agent tool = false) :=
  ⟨fun _ _ => rfl, fun _ _ => rfl,
   fun _ _ _ h => scanAccessRules_no_allow _ _ _ h,
   fun _ _ _ h => scanAccessRules_no_allow _ _ _ h⟩

/-- C9 witness: without policies an arbitrary pair is allowed; with the
fixture policies loaded, pairs outside the allow lists are denied. -/
theorem registry_default_access_policy_witness :
    is_agent_invocation_allowed none "fraud_agent" "severity_agent" = true ∧
    is_agent_invocation_allowed (some fixtureAccessPolicies)
      "orchestrator_agent" "fraud_agent" = false ∧
    is_tool_access_allowed (some fixtureAccessPolicies)
      "fraud_agent" "decision_rules" = false :=
  ⟨registry_default_access_policy.1 "fraud_agent" "severity_agent",
   registry_default_access_policy.2.2.1 fixtureAccessPolicies "orchestrator_agent"
     "fraud_agent" (by decide),
   registry_default_access_policy.2.2.2 fixtureAccessPolicies "fraud_agent"
     "decision_rules" (by decide)⟩

/-- C10: deleting a memory id that is not stored returns `False` and
leaves the store untouched — in particular the memories file is not
rewritten and the index is not rebuilt. -/
theorem delete_memory_missing_id (s : MemoryStore) (memory_id : String)
    (h : ∀ m ∈ s.memories, m.memory_id ≠ memory_id) :
    delete_memory s memory_id = (s, false) := by
  unfold delete_memory
  have hfilter : s.memories.filter (fun m => decide (m.memory_id ≠ memory_id)) = s.memories := by
    rw [List.filter_eq_self]
    intro m hm
    simpa using h m hm
  rw [hfilter, if_pos rfl]

/-- C10 witness: deleting an absent id from the fixture store returns
`False` with the store (file-rewrite and index-rebuild counters included)
unchanged. -/
theorem delete_memory_missing_id_witness :
    delete_memory fixtureMemoryStore "mem_20260101_000000_bbbbbbbb" =
      (fixtureMemoryStore, false) :=
  delete_memory_missing_id fixtureMemoryStore "mem_20260101_000000_bbbbbbbb" (by decide)

end AgentMesh
